import Mathlib

/-!
Verification of the particle execution engine of the Fluence js-client.

The definitions below are a shallow embedding of the TypeScript sources:

* `RelayConnection.sendParticle` from the relay connection module;
* the `FluencePeer` lifecycle (`start`), particle initiation, AST parsing,
  Marine-service registration, the per-signature-group AVM invocation loop
  with its `prevData` threading, the expiration filters, the dispatch stage
  and the call-request execution from `packages/core/js-client/src/api.ts`;
* the `callAquaFunction` compiler-support entry point.

External capabilities (the Marine host, the JS service host, the network)
are modelled as explicit parameters, matching the interfaces the engine
consumes.  Effects (callbacks fired, particles sent, items re-enqueued)
are reified as values so that theorems can speak about them.  Callbacks
themselves are identified by numeric ids, which lets theorems state that a
re-enqueued item carries the same callbacks as its parent item.
-/

namespace JsClient

/-- Opaque byte buffers (AVM data, signatures) are modelled as lists of bytes. -/
abbrev Bytes := List Nat

mutual

/-- JSON values exchanged with services. -/
inductive Json where
  | null : Json
  | bool (b : Bool) : Json
  | num (n : Int) : Json
  | str (s : String) : Json
  | arr (items : JsonArr) : Json
  | obj (fields : JsonObj) : Json

/-- A JSON array, as its own inductive so that recursion stays structural. -/
inductive JsonArr where
  | nil : JsonArr
  | cons (head : Json) (tail : JsonArr) : JsonArr

/-- A JSON object: an ordered list of key-value fields. -/
inductive JsonObj where
  | nil : JsonObj
  | cons (key : String) (value : Json) (tail : JsonObj) : JsonObj

end

deriving instance DecidableEq for Json

/-- Converts a Lean list of JSON values into a JSON array. -/
def JsonArr.ofList : List Json → JsonArr
  | [] => JsonArr.nil
  | x :: xs => JsonArr.cons x (JsonArr.ofList xs)

mutual

/-- Modelled from the spec: the `jsonify` utility (its source file is not in
`src/`) serializes a JSON value to a string; the engine uses it to package
service results and to print argument lists in error messages. -/
def jsonify : Json → String
  | .null => "null"
  | .bool b => if b then "true" else "false"
  | .num n => toString n
  | .str s => "\x22" ++ s ++ "\x22"
  | .arr items => "[" ++ jsonifyArr items ++ "]"
  | .obj fields => "\x7b" ++ jsonifyObj fields ++ "\x7d"

/-- Serializes the comma-separated items of a JSON array. -/
def jsonifyArr : JsonArr → String
  | .nil => ""
  | .cons x .nil => jsonify x
  | .cons x (.cons y t) => jsonify x ++ "," ++ jsonifyArr (.cons y t)

/-- Serializes the comma-separated fields of a JSON object. -/
def jsonifyObj : JsonObj → String
  | .nil => ""
  | .cons k v .nil => "\x22" ++ k ++ "\x22:" ++ jsonify v
  | .cons k v (.cons k2 v2 t) =>
      "\x22" ++ k ++ "\x22:" ++ jsonify v ++ "," ++ jsonifyObj (.cons k2 v2 t)

end

/-- An immutable particle value. -/
structure Particle where
  id : String
  initPeerId : String
  timestamp : Nat
  ttl : Nat
  script : String
  signature : Bytes
  data : Bytes
deriving DecidableEq

/-- Modelled from the spec: `cloneWithNewData(p, bytes)` (the Particle module
is not in `src/`) returns a new particle identical to `p` except for `data`,
preserving identity fields and the signature. -/
def cloneWithNewData (p : Particle) (newData : Bytes) : Particle :=
  { p with data := newData }

/-- Modelled from the spec: `hasExpired(p)` holds exactly when
`now > p.timestamp + p.ttl` (the Particle module is not in `src/`). -/
def hasExpired (now : Nat) (p : Particle) : Bool :=
  decide (p.timestamp + p.ttl < now)

/-!  ## Relay connection: `RelayConnection.sendParticle`  -/

/-- The relay connection state: own peer id and the connected relay peer id. -/
structure RelayConnection where
  peerId : String
  relayPeerId : String
deriving DecidableEq

/-- Embedding of `RelayConnection.sendParticle`.  The source guard is

`if (nextPeerIds.length !== 1 && nextPeerIds[0] !== this.relayPeerId)`

with a conjunction; `nextPeerIds[0]` on an empty array is `undefined`, which
is embedded as `List.head?` returning `none`.  When the guard does not throw,
the particle is written as one length-prefixed frame; the returned list holds
the frames written to the stream. -/
def RelayConnection.sendParticle (c : RelayConnection) (nextPeerIds : List String)
    (particle : String) : Except String (List String) :=
  if nextPeerIds.length ≠ 1 ∧ nextPeerIds.head? ≠ some c.relayPeerId then
    Except.error
      ("Relay connection only accepts peer id of the connected relay. Got: " ++
        jsonify (Json.arr (JsonArr.ofList (nextPeerIds.map Json.str))) ++ " instead.")
  else
    Except.ok [particle]

/-!  ## Result codes and service call data  -/

/-- Modelled from the spec: `ResultCodes.success` (the jsServiceHost interface
module is not in `src/`); a zero `retCode` means success. -/
def ResultCodes.success : Int := 0

/-- Modelled from the spec: `ResultCodes.error`; a non-zero `retCode` means
the service call failed. -/
def ResultCodes.error : Int := 1

/-- The result of a service call: a return code and a JSON value. -/
structure CallServiceResult where
  retCode : Int
  result : Json
deriving DecidableEq

/-- Modelled from the spec: the particle context attached to each service
call request (`getParticleContext` is not in `src/`): identity fields of the
particle plus the tetraplets of the call. -/
structure ParticleContext where
  particleId : String
  initPeerId : String
  timestamp : Nat
  ttl : Nat
  signature : Bytes
  tetraplets : List Json
deriving DecidableEq

/-- Builds the particle context for a call request, as the engine does before
executing the request. -/
def getParticleContext (p : Particle) (tetraplets : List Json) : ParticleContext :=
  { particleId := p.id
    initPeerId := p.initPeerId
    timestamp := p.timestamp
    ttl := p.ttl
    signature := p.signature
    tetraplets := tetraplets }

/-- A service call request as handed to the service hosts. -/
structure CallServiceData where
  serviceId : String
  fnName : String
  args : List Json
  tetraplets : List Json
  particleContext : ParticleContext
deriving DecidableEq

/-- A call request emitted by one AVM invocation. -/
structure CallRequest where
  serviceId : String
  functionName : String
  arguments : List Json
  tetraplets : List Json
deriving DecidableEq

/-- The deserialized result of one AVM invocation. -/
structure InterpreterResult where
  retCode : Int
  errorMessage : String
  data : Bytes
  nextPeerPks : List String
  callRequests : List (Nat × CallRequest)
deriving DecidableEq

/-- The outcome the engine stores for one AVM invocation: either the
deserialized interpreter result or the message of the caught exception
(`avmCallResult: InterpreterResult | Error` in the source). -/
abbrev AvmOutcome := Except String InterpreterResult

/-- A packaged service result as fed back to the next AVM invocation:
the JSON-serialized result string and the return code. -/
structure PackedResult where
  result : String
  retCode : Int
deriving DecidableEq

/-- A queue item: the particle, the call results to feed to AVM, and the
completion callbacks (identified by numeric ids). -/
structure ParticleQueueItem where
  particle : Particle
  callResults : List (Nat × PackedResult)
  onSuccess : Nat
  onError : Nat
deriving DecidableEq

/-!  ## AVM invocation loop: `prevData` threading per signature group  -/

/-- Embedding of the `prevData` update after one AVM invocation:

`if (!(avmCallResult instanceof Error) && avmCallResult.retCode === 0)
   prevData = newData`

so the buffer changes only for a non-throwing invocation with `retCode` 0. -/
def updatePrevData (prevData : Bytes) (outcome : AvmOutcome) : Bytes :=
  match outcome with
  | Except.error _ => prevData
  | Except.ok res => if res.retCode = 0 then res.data else prevData

/-- The sequence of `prevData` buffers observed by the successive AVM
invocations of one signature group, given the group-local initial buffer and
the outcome of each invocation in order. -/
def groupObservations (prevData : Bytes) : List AvmOutcome → List Bytes
  | [] => []
  | outcome :: rest => prevData :: groupObservations (updatePrevData prevData outcome) rest

/-!  ## Peer lifecycle: order of effects in `FluencePeer.start`  -/

/-- Observable steps of `FluencePeer.start`. -/
inductive StartEvent where
  | setPrintParticleId : StartEvent
  | marineStart : StartEvent
  | subscribeParticleSource : StartEvent
  | setInitializedTrue : StartEvent
  | connectionStart : StartEvent
deriving DecidableEq, BEq

/-- Embedding of `FluencePeer.start` as the ordered list of its effects:
the optional debug flag write, `marineHost.start()`, the subscription to
`connection.particleSource` (the first statement of
`_startParticleProcessing`), the `isInitialized = true` write, and finally
`connection.start()`. -/
def startTrace (printParticleId : Bool) : List StartEvent :=
  (if printParticleId then [StartEvent.setPrintParticleId] else []) ++
  [StartEvent.marineStart, StartEvent.subscribeParticleSource,
   StartEvent.setInitializedTrue, StartEvent.connectionStart]

/-- Helper scanning a trace: the value of the `isInitialized` flag at the
moment the given event executes; the flag starts at the given value and is
flipped to `true` by the `setInitializedTrue` event. -/
def initFlagWhenGo (flag : Bool) (e : StartEvent) : List StartEvent → Bool
  | [] => flag
  | x :: xs =>
      if x = e then flag
      else initFlagWhenGo (flag || x == StartEvent.setInitializedTrue) e xs

/-- The value of `isInitialized` at the moment the given event of the trace
executes, starting from `false`. -/
def initFlagWhen (trace : List StartEvent) (e : StartEvent) : Bool :=
  initFlagWhenGo false e trace

/-!  ## Service call execution  -/

/-- A JavaScript exception escaping a service handler: either a deliberate
`ServiceError` or any other throw, carrying its message. -/
inductive JsThrow where
  | serviceError (message : String) : JsThrow
  | other (message : String) : JsThrow
deriving DecidableEq

/-- The external capabilities the engine consumes when executing a call
request: the Marine host registry and call function, and the JS service
host dispatch, which may find no handler (`none`) or throw. -/
structure ExecEnv where
  marineHas : String → Bool
  marineCall : String → String → List Json → Json
  jsCall : CallServiceData → Except JsThrow (Option CallServiceResult)

/-- The error text synthesized when no service matches a call request. -/
def noServiceFoundMsg (req : CallServiceData) : String :=
  "No service found for service call: serviceId=\x27" ++ req.serviceId ++
  "\x27, fnName=\x27" ++ req.fnName ++ "\x27 args=\x27" ++
  jsonify (Json.arr (JsonArr.ofList req.args)) ++ "\x27"

/-- The error text synthesized when a service handler throws something other
than a `ServiceError`. -/
def serviceCallFailedMsg (req : CallServiceData) (errMsg : String) : String :=
  "Service call failed. fnName=\x22" ++ req.fnName ++ "\x22 serviceId=\x22" ++
  req.serviceId ++ "\x22 error: " ++ errMsg

/-- Embedding of `FluencePeer._execSingleCallRequest`: Marine-hosted services
take precedence; otherwise the JS service host is consulted and a `null`
reply is replaced by a synthesized error result.  A throw from the JS host
propagates to the caller. -/
def execSingleCallRequest (env : ExecEnv) (req : CallServiceData) :
    Except JsThrow CallServiceResult :=
  if env.marineHas req.serviceId then
    Except.ok
      { retCode := ResultCodes.success
        result := env.marineCall req.serviceId req.fnName req.args }
  else
    match env.jsCall req with
    | Except.error e => Except.error e
    | Except.ok none =>
        Except.ok { retCode := ResultCodes.error, result := Json.str (noServiceFoundMsg req) }
    | Except.ok (some res) => Except.ok res

/-- Embedding of the `catch` the engine wraps around
`_execSingleCallRequest` when dispatching call requests: a `ServiceError`
becomes an error result carrying its message, any other throw becomes an
error result with the synthesized failure text. -/
def execCallRequestWithCatch (env : ExecEnv) (req : CallServiceData) : CallServiceResult :=
  match execSingleCallRequest env req with
  | Except.ok res => res
  | Except.error (JsThrow.serviceError msg) =>
      { retCode := ResultCodes.error, result := Json.str msg }
  | Except.error (JsThrow.other msg) =>
      { retCode := ResultCodes.error, result := Json.str (serviceCallFailedMsg req msg) }

/-!  ## Dispatch stage  -/

/-- Errors delivered through an item `onError` callback. -/
inductive ErrorEvent where
  | interpreterError (message : String) : ErrorEvent
  | sendError (message : String) : ErrorEvent
  | expirationError (message : String) : ErrorEvent
deriving DecidableEq

/-- The message of the `InterpreterError` raised for a failed interpretation. -/
def interpreterErrorMsg (message particleId : String) : String :=
  "Script interpretation failed: " ++ message ++ "  (particle id: " ++ particleId ++ ")"

/-- The effects of the dispatch stage for one queue item: the `onError`
invocations, the particles sent to next peers, the call requests executed,
and the items put back on the incoming queue. -/
structure DispatchOutput where
  onErrorCalls : List (Nat × ErrorEvent)
  sends : List (List String × Particle)
  executed : List (Nat × CallRequest)
  enqueued : List ParticleQueueItem
deriving DecidableEq

/-- The empty dispatch output, produced when the stage returns early. -/
def DispatchOutput.empty : DispatchOutput :=
  { onErrorCalls := [], sends := [], executed := [], enqueued := [] }

/-- Builds the `CallServiceData` for one AVM call request, as the engine does
before executing it. -/
def toCallServiceData (p : Particle) (cr : CallRequest) : CallServiceData :=
  { fnName := cr.functionName
    args := cr.arguments
    serviceId := cr.serviceId
    tetraplets := cr.tetraplets
    particleContext := getParticleContext p cr.tetraplets }

/-- Embedding of the completion continuation of one call request: the
`callbackSrv`/`response` pair means the particle is already processed and
nothing is re-enqueued; otherwise the result is packaged with `jsonify` and a
clone of the particle with empty data is put back on the queue, spreading the
rest of the original item (so the callbacks are unchanged). -/
def handleCallRequestResult (item : ParticleQueueItem) (key : Nat)
    (req : CallServiceData) (res : CallServiceResult) : Option ParticleQueueItem :=
  if req.serviceId = "callbackSrv" ∧ req.fnName = "response" then
    none
  else
    some
      { item with
        particle := cloneWithNewData item.particle []
        callResults := [(key, { result := jsonify res.result, retCode := res.retCode })] }

/-- Embedding of the dispatch stage of `_startParticleProcessing` (the final
`mergeMap`): short-circuit when the peer is stopped; `onError` with an
`InterpreterError` when the interpreter threw or returned a non-zero
`retCode`; otherwise forward to next peers when requested and execute every
call request, re-enqueueing each packaged result. -/
def dispatch (isInitialized : Bool) (env : ExecEnv) (item : ParticleQueueItem)
    (result : AvmOutcome) : DispatchOutput :=
  if !isInitialized then DispatchOutput.empty
  else
    match result with
    | Except.error msg =>
        { onErrorCalls :=
            [(item.onError, ErrorEvent.interpreterError (interpreterErrorMsg msg item.particle.id))]
          sends := []
          executed := []
          enqueued := [] }
    | Except.ok res =>
        if res.retCode ≠ 0 then
          { onErrorCalls :=
              [(item.onError,
                ErrorEvent.interpreterError (interpreterErrorMsg res.errorMessage item.particle.id))]
            sends := []
            executed := []
            enqueued := [] }
        else
          { onErrorCalls := []
            sends :=
              if res.nextPeerPks.length > 0 then
                [(res.nextPeerPks, cloneWithNewData item.particle res.data)]
              else []
            executed := res.callRequests
            enqueued := res.callRequests.filterMap (fun kv =>
              handleCallRequestResult item kv.1 (toCallServiceData item.particle kv.2)
                (execCallRequestWithCatch env (toCallServiceData item.particle kv.2))) }

/-!  ## Expiration filters  -/

/-- The message of the `ExpirationError` raised for an expired particle. -/
def expirationErrorMsg (p : Particle) : String :=
  "Particle expired after ttl of " ++ toString p.ttl ++ "ms (particle id: " ++ p.id ++ ")"

/-- The effects of `FluencePeer._expireParticle` on one item: the removal of
the particle-scope handlers of the particle id, then the `onError` call with
the `ExpirationError`. -/
structure ExpireEvent where
  removedHandlersForParticleId : String
  onErrorCall : Nat × ErrorEvent
deriving DecidableEq

/-- Embedding of `FluencePeer._expireParticle`. -/
def expireParticle (item : ParticleQueueItem) : ExpireEvent :=
  { removedHandlersForParticleId := item.particle.id
    onErrorCall :=
      (item.onError, ErrorEvent.expirationError (expirationErrorMsg item.particle)) }

/-- Embedding of the `filterExpiredParticles` pipe: a `tap` firing the
expiration callback on every expired item, then a `filter` dropping the
expired items.  Returns the fired expiration effects and the surviving
items. -/
def filterExpiredParticles {α : Type} (now : Nat) (particleOf : α → Particle)
    (onParticleExpiration : α → ExpireEvent) (items : List α) :
    List ExpireEvent × List α :=
  ((items.filter (fun x => hasExpired now (particleOf x))).map onParticleExpiration,
   items.filter (fun x => !hasExpired now (particleOf x)))

/-- The observable outcome of running one signature group through the
expiration-related stages: effects of the filter before interpretation,
effects of the re-filter after interpretation, and the items (with their
interpreter outcomes) that reach the dispatch stage. -/
structure GroupExpiryOutput where
  preExpired : List ExpireEvent
  postExpired : List ExpireEvent
  dispatched : List (ParticleQueueItem × AvmOutcome)

/-- Embedding of the expiration structure of the pipeline: items pass the
expiration filter, the survivors are interpreted, the results pass the
expiration re-filter (the wall clock may have advanced to `nowPost` by then),
and only the remaining items reach dispatch. -/
def processGroupExpiry (nowPre nowPost : Nat)
    (interpret : ParticleQueueItem → AvmOutcome)
    (items : List ParticleQueueItem) : GroupExpiryOutput :=
  let step1 := filterExpiredParticles nowPre (fun i => i.particle) expireParticle items
  let withResults := step1.2.map (fun i => (i, interpret i))
  let step2 := filterExpiredParticles nowPost (fun p => p.1.particle)
      (fun p => expireParticle p.1) withResults
  { preExpired := step1.1, postExpired := step2.1, dispatched := step2.2 }

/-!  ## The call-function API  -/

/-- An argument of an Aqua function call: a user callback (identified by a
numeric id) or a plain JSON value. -/
inductive ArgValue where
  | func (f : Nat) : ArgValue
  | value (v : Json) : ArgValue
deriving DecidableEq

/-- What a registered particle-scope service does when called. -/
inductive HandlerKind where
  | userFunction (f : Nat) : HandlerKind
  | injectValue (v : Json) : HandlerKind
  | response (resolveCb : Nat) : HandlerKind
  | injectRelay : HandlerKind
  | errorHandler (rejectCb : Nat) : HandlerKind
deriving DecidableEq

/-- A service description: the service id, the function name and the
behavior of the handler. -/
structure ServiceDescription where
  serviceId : String
  fnName : String
  handler : HandlerKind
deriving DecidableEq

/-- Modelled from the spec: `userHandlerService(serviceId, fnName, f)` (the
services module is not in `src/`) describes a service invoking the user
function and returning its result. -/
def userHandlerService (serviceId fnName : String) (f : Nat) : ServiceDescription :=
  { serviceId := serviceId, fnName := fnName, handler := HandlerKind.userFunction f }

/-- Modelled from the spec: `injectValueService(serviceId, fnName, v)`
describes a service returning the literal value. -/
def injectValueService (serviceId fnName : String) (v : Json) : ServiceDescription :=
  { serviceId := serviceId, fnName := fnName, handler := HandlerKind.injectValue v }

/-- Modelled from the spec: `responseService(resolve)` describes
`callbackSrv.response`, resolving the promise with its first argument. -/
def responseService (resolveCb : Nat) : ServiceDescription :=
  { serviceId := "callbackSrv", fnName := "response", handler := HandlerKind.response resolveCb }

/-- Modelled from the spec: `injectRelayService(peer)` describes
`getDataSrv.-relay-`, returning the relay peer id. -/
def injectRelayService : ServiceDescription :=
  { serviceId := "getDataSrv", fnName := "-relay-", handler := HandlerKind.injectRelay }

/-- Modelled from the spec: `errorHandlingService(reject)` describes
`errorHandlingSrv.error`, rejecting the promise with the AIR-supplied
message. -/
def errorHandlingService (rejectCb : Nat) : ServiceDescription :=
  { serviceId := "errorHandlingSrv", fnName := "error", handler := HandlerKind.errorHandler rejectCb }

/-- An observable action of `callAquaFunction`: a particle-scope service
registration, or the initiation of the particle with the given resolve and
reject callbacks. -/
inductive AquaAction where
  | registerParticleScope (particleId : String) (srv : ServiceDescription) : AquaAction
  | initiate (particleId : String) (onSuccess onError : Nat) : AquaAction
deriving DecidableEq

/-- The body of the argument loop of `callAquaFunction`: a function argument
becomes a `callbackSrv` user-handler registration under the argument name, any
other argument becomes a `getDataSrv` value injector under the argument
name. -/
def argServiceAction (particleId : String) (nv : String × ArgValue) : AquaAction :=
  match nv.2 with
  | ArgValue.func f =>
      AquaAction.registerParticleScope particleId (userHandlerService "callbackSrv" nv.1 f)
  | ArgValue.value v =>
      AquaAction.registerParticleScope particleId (injectValueService "getDataSrv" nv.1 v)

/-- Embedding of `callAquaFunction` as the ordered list of its actions on the
peer: for each named argument a `callbackSrv` handler (for a function) or a
`getDataSrv` injector (for a value); the `response` service unless
`fireAndForget`; then the relay injector, the error-handling service, and the
particle initiation with the resolve and reject callbacks of the returned
promise. -/
def callAquaFunction (particleId : String) (args : List (String × ArgValue))
    (fireAndForget : Bool) (resolveCb rejectCb : Nat) : List AquaAction :=
  (args.map (argServiceAction particleId))
  ++ (if fireAndForget then []
      else [AquaAction.registerParticleScope particleId (responseService resolveCb)])
  ++ [AquaAction.registerParticleScope particleId injectRelayService]
  ++ [AquaAction.registerParticleScope particleId (errorHandlingService rejectCb)]
  ++ [AquaAction.initiate particleId resolveCb rejectCb]

/-!  ## API entry points and the initialization flag  -/

/-- Embedding of `internals.initiateParticle`: when the peer is not
initialized the method throws before enqueueing anything; otherwise the new
queue item with empty call results and the two callbacks is enqueued. -/
def initiateParticle (isInitialized : Bool) (particle : Particle)
    (onSuccess onError : Nat) : Except String ParticleQueueItem :=
  if !isInitialized then
    Except.error "Cannot initiate new particle: peer is not initialized"
  else
    Except.ok { particle := particle, callResults := [], onSuccess := onSuccess, onError := onError }

/-- The capabilities `parseAst` consumes: the `avm`/`ast` Marine call
(assumed to return a string) and the JSON parser. -/
structure AstEnv where
  callAvmAst : String → String
  parseJson : String → Except String Json

/-- The data returned by `parseAst`: the raw reply when the interpreter
reports an error, or the parsed JSON AST. -/
inductive ParseAstData where
  | raw (s : String) : ParseAstData
  | parsed (j : Json) : ParseAstData
deriving DecidableEq

/-- Embedding of `internals.parseAst`.  The source guard for the
uninitialized peer evaluates `new Error(...)` as a bare expression statement:
the error value is discarded and nothing is thrown, so execution continues to
the `avm`/`ast` call regardless of the flag; the embedding keeps the unused
flag parameter to make that observable.  A reply starting with `error` yields
a failed parse result; otherwise the reply is JSON-parsed, a parse failure
being rethrown with the `Failed to call avm` message. -/
def parseAst (isInitialized : Bool) (env : AstEnv) (air : String) :
    Except String (Bool × ParseAstData) :=
  let res := env.callAvmAst air
  if res.startsWith "error" then
    Except.ok (false, ParseAstData.raw res)
  else
    match env.parseJson res with
    | Except.ok j => Except.ok (true, ParseAstData.parsed j)
    | Except.error e =>
        Except.error ("Failed to call avm. Result: " ++ res ++ ". Error: " ++ e)

/-!  ## Marine service registration  -/

/-- The effect of a successful `registerMarineService` call. -/
inductive MarineRegEffect where
  | createService (serviceId : String) : MarineRegEffect
deriving DecidableEq

/-- Embedding of `FluencePeer.registerMarineService`: the duplicate guard
consults `jsServiceHost.hasService` only; the Marine host registry (also
available to the method) is never queried, and on a passed guard
`marineHost.createService` is invoked. -/
def registerMarineService (jsHas : String → Bool) (marineHas : String → Bool)
    (serviceId : String) : Except String MarineRegEffect :=
  if jsHas serviceId then
    Except.error ("Service with \x27" ++ serviceId ++ "\x27 id already exists")
  else
    Except.ok (MarineRegEffect.createService serviceId)

/-!  ## Theorems  -/

/-- C1: the relay guard of `RelayConnection.sendParticle` is a conjunction,
not the disjunction the claim needs: a single next-peer id different from
the relay peer id passes the guard and the particle is written to the
stream, and so does a multi-element list starting with the relay peer id;
only a list that is both not a singleton and not starting with the relay
peer id (such as the empty list) is rejected. -/
theorem C1_sendParticle_guard_passes_wrong_single_peer :
    RelayConnection.sendParticle
        { peerId := "QmSelf", relayPeerId := "QmRelay" } ["QmOther"] "p"
      = Except.ok ["p"]
    ∧ ["QmOther"] ≠ ["QmRelay"]
    ∧ RelayConnection.sendParticle
        { peerId := "QmSelf", relayPeerId := "QmRelay" } ["QmRelay", "QmX"] "p"
      = Except.ok ["p"]
    ∧ RelayConnection.sendParticle
        { peerId := "QmSelf", relayPeerId := "QmRelay" } [] "p"
      = Except.error
          ("Relay connection only accepts peer id of the connected relay. Got: " ++
            "[]" ++ " instead.") :=
  ⟨rfl, by decide, rfl, rfl⟩

/-- C3 counterexample: the claim states that `start()` flips `isInitialized`
only after the Connection has been started, so that the flag is still false
while `connection.start()` is running; in the embedded trace of `start()`
the flag write precedes `connection.start()` and the flag is already true
when `connection.start()` executes. -/
theorem C3_start_counterexample :
    ¬ (initFlagWhen (startTrace false) StartEvent.connectionStart = false
       ∧ (startTrace false).findIdx (fun e => e == StartEvent.connectionStart) <
         (startTrace false).findIdx (fun e => e == StartEvent.setInitializedTrue)) := by
  decide

/-- C3 (amended): `start()` starts the Marine host, then subscribes to
`connection.particleSource`, then flips `isInitialized` to true, and only
then starts the Connection; in particular `isInitialized` is already true
while `connection.start()` is running, and was still false when the
subscription was installed. -/
theorem C3_start_order (printParticleId : Bool) :
    (startTrace printParticleId).findIdx (fun e => e == StartEvent.marineStart) <
      (startTrace printParticleId).findIdx (fun e => e == StartEvent.subscribeParticleSource)
    ∧ (startTrace printParticleId).findIdx (fun e => e == StartEvent.subscribeParticleSource) <
      (startTrace printParticleId).findIdx (fun e => e == StartEvent.setInitializedTrue)
    ∧ (startTrace printParticleId).findIdx (fun e => e == StartEvent.setInitializedTrue) <
      (startTrace printParticleId).findIdx (fun e => e == StartEvent.connectionStart)
    ∧ initFlagWhen (startTrace printParticleId) StartEvent.connectionStart = true
    ∧ initFlagWhen (startTrace printParticleId) StartEvent.subscribeParticleSource = false := by
  cases printParticleId <;> decide

/-- A stub environment for `parseAst` whose `avm`/`ast` call returns the
string `[]` and whose JSON parser accepts exactly that string. -/
def astEnvStub : AstEnv :=
  { callAvmAst := fun _ => "[]"
    parseJson := fun s =>
      if s = "[]" then Except.ok (Json.arr JsonArr.nil)
      else Except.error "unexpected token" }

/-- A concrete particle for evaluating the API entry points. -/
def particleStub : Particle :=
  { id := "pid-1", initPeerId := "QmInit", timestamp := 100, ttl := 7000,
    script := "(null)", signature := [1, 2], data := [] }

/-- C9: `initiateParticle` does throw the not-initialized error before
enqueueing anything, but `parseAst` does not: its guard evaluates
`new Error(...)` without `throw`, so with the peer uninitialized the method
still proceeds to the `avm`/`ast` call and returns its result; the outcome
of `parseAst` is identical whether or not the peer is initialized. -/
theorem C9_parseAst_missing_throw :
    parseAst false astEnvStub "(null)"
      = Except.ok (true, ParseAstData.parsed (Json.arr JsonArr.nil))
    ∧ (∀ env air, parseAst false env air = parseAst true env air)
    ∧ initiateParticle false particleStub 0 1
      = Except.error "Cannot initiate new particle: peer is not initialized" :=
  ⟨rfl, fun _ _ => rfl, rfl⟩

/-- C2: within one signature group, the `prevData` buffer observed by the
next AVM invocation equals the data returned by the previous invocation
exactly when that invocation returned without throwing and with `retCode` 0;
for a thrown invocation or a non-zero `retCode` the next invocation observes
exactly the buffer the previous one observed. -/
theorem C2_prevData_updated_iff_retCode_zero (prevData : Bytes)
    (outcomes : List AvmOutcome) (i : Nat) (h : i + 1 < outcomes.length) :
    (groupObservations prevData outcomes).getD (i + 1) [] =
      (match outcomes.getD i (Except.error "") with
       | Except.ok res =>
           if res.retCode = 0 then res.data
           else (groupObservations prevData outcomes).getD i []
       | Except.error _ => (groupObservations prevData outcomes).getD i []) := by
  induction outcomes generalizing prevData i with
  | nil => simp at h
  | cons outcome rest ih =>
    cases i with
    | zero =>
      cases rest with
      | nil => simp at h
      | cons o2 r2 =>
        cases outcome with
        | error e => simp [groupObservations, updatePrevData]
        | ok res =>
          by_cases hr : res.retCode = 0 <;>
            simp [groupObservations, updatePrevData, hr]
    | succ j =>
      have h2 : j + 1 < rest.length := by simpa using h
      have hstep := ih (updatePrevData prevData outcome) j h2
      simpa [groupObservations] using hstep

/-- Concrete invocation outcomes for the C2 witness: a successful run
producing data `[7]`, then a thrown invocation, then a non-zero `retCode`. -/
def outcomesSample : List AvmOutcome :=
  [Except.ok
      { retCode := 0, errorMessage := "", data := [7], nextPeerPks := [], callRequests := [] },
   Except.error "avm crashed",
   Except.ok
      { retCode := 1, errorMessage := "failed", data := [9], nextPeerPks := [], callRequests := [] }]

/-- C2 witness: on the concrete outcome list, invocation 2 (after the thrown
invocation 1) observes exactly the buffer invocation 1 observed. -/
theorem C2_prevData_witness :
    1 + 1 < outcomesSample.length
    ∧ (groupObservations [] outcomesSample).getD (1 + 1) []
        = (groupObservations [] outcomesSample).getD 1 [] :=
  ⟨by decide, C2_prevData_updated_iff_retCode_zero [] outcomesSample 1 (by decide)⟩

/-- C5: executing a call request resolves in the claimed order: a Marine
host hit delegates to Marine and wraps the return value with the success
code; otherwise the JS host reply is used, a `null` reply being replaced by
the no-service-found error result, a thrown `ServiceError` by an error
result carrying its message, and any other throw by an error result with
the service-call-failed text naming the function and service. -/
theorem C5_exec_call_request_resolution (env : ExecEnv) (req : CallServiceData) :
    execCallRequestWithCatch env req =
      (if env.marineHas req.serviceId then
        { retCode := ResultCodes.success
          result := env.marineCall req.serviceId req.fnName req.args }
      else
        match env.jsCall req with
        | Except.ok (some res) => res
        | Except.ok none =>
            { retCode := ResultCodes.error, result := Json.str (noServiceFoundMsg req) }
        | Except.error (JsThrow.serviceError msg) =>
            { retCode := ResultCodes.error, result := Json.str msg }
        | Except.error (JsThrow.other msg) =>
            { retCode := ResultCodes.error, result := Json.str (serviceCallFailedMsg req msg) }) := by
  unfold execCallRequestWithCatch execSingleCallRequest
  by_cases hm : env.marineHas req.serviceId
  · simp [hm]
  · simp only [hm, if_false, Bool.false_eq_true, if_neg]
    cases hj : env.jsCall req with
    | ok o => cases o <;> simp
    | error e => cases e <;> simp

/-- C4: for a dispatched item whose interpreter outcome is an error value,
or whose result has a non-zero `retCode`, the dispatch stage fires the item
`onError` exactly once with the `InterpreterError` text carrying the message
and the particle id, and the item is terminal: nothing is sent to next
peers, no call request is executed and nothing is re-enqueued. -/
theorem C4_interpreter_error_is_terminal (env : ExecEnv) (item : ParticleQueueItem)
    (msg : String) (res : InterpreterResult) (h : res.retCode ≠ 0) :
    dispatch true env item (Except.error msg) =
      { onErrorCalls :=
          [(item.onError,
            ErrorEvent.interpreterError (interpreterErrorMsg msg item.particle.id))]
        sends := [], executed := [], enqueued := [] }
    ∧ dispatch true env item (Except.ok res) =
      { onErrorCalls :=
          [(item.onError,
            ErrorEvent.interpreterError (interpreterErrorMsg res.errorMessage item.particle.id))]
        sends := [], executed := [], enqueued := [] } := by
  refine ⟨rfl, ?_⟩
  simp [dispatch, h]

/-- A trivial execution environment: Marine hosts every service and returns
JSON null. -/
def execEnvMarineNull : ExecEnv :=
  { marineHas := fun _ => true
    marineCall := fun _ _ _ => Json.null
    jsCall := fun _ => Except.ok none }

/-- A concrete queue item for the dispatch witnesses. -/
def itemSample : ParticleQueueItem :=
  { particle := particleStub, callResults := [], onSuccess := 10, onError := 11 }

/-- A concrete failed interpreter result with `retCode` 1. -/
def resFailedSample : InterpreterResult :=
  { retCode := 1, errorMessage := "air failure", data := [3],
    nextPeerPks := [], callRequests := [] }

/-- C4 witness: on a concrete item, both the thrown outcome and the
`retCode` 1 outcome produce exactly one `onError` call and no further
effects. -/
theorem C4_interpreter_error_witness :
    dispatch true execEnvMarineNull itemSample (Except.error "boom") =
      { onErrorCalls :=
          [(itemSample.onError,
            ErrorEvent.interpreterError (interpreterErrorMsg "boom" itemSample.particle.id))]
        sends := [], executed := [], enqueued := [] }
    ∧ dispatch true execEnvMarineNull itemSample (Except.ok resFailedSample) =
      { onErrorCalls :=
          [(itemSample.onError,
            ErrorEvent.interpreterError
              (interpreterErrorMsg resFailedSample.errorMessage itemSample.particle.id))]
        sends := [], executed := [], enqueued := [] } :=
  C4_interpreter_error_is_terminal execEnvMarineNull itemSample "boom" resFailedSample (by decide)

/-- C6: for a successful interpretation, each call request whose service id
is `callbackSrv` and function name is `response` re-enqueues nothing, and
every other call request re-enqueues one item whose particle is the original
cloned with empty data, whose call results are the single packaged pair for
the request key, and whose callbacks are those of the original item. -/
theorem C6_reenqueue_except_response (env : ExecEnv) (item : ParticleQueueItem)
    (res : InterpreterResult) (h : res.retCode = 0) :
    (dispatch true env item (Except.ok res)).enqueued =
      res.callRequests.filterMap (fun kv =>
        if kv.2.serviceId = "callbackSrv" ∧ kv.2.functionName = "response" then
          none
        else
          some
            { particle := cloneWithNewData item.particle []
              callResults :=
                [(kv.1,
                  { result :=
                      jsonify (execCallRequestWithCatch env (toCallServiceData item.particle kv.2)).result
                    retCode :=
                      (execCallRequestWithCatch env (toCallServiceData item.particle kv.2)).retCode })]
              onSuccess := item.onSuccess
              onError := item.onError }) := by
  simp only [dispatch, h, Bool.not_true, ne_eq, not_true_eq_false, if_false]
  simp [handleCallRequestResult, toCallServiceData]

/-- A successful interpreter result emitting a `callbackSrv`/`response`
request under key 1 and an ordinary request under key 2. -/
def resCallsSample : InterpreterResult :=
  { retCode := 0, errorMessage := "", data := [], nextPeerPks := [],
    callRequests :=
      [(1, { serviceId := "callbackSrv", functionName := "response",
             arguments := [Json.num 42], tetraplets := [] }),
       (2, { serviceId := "op", functionName := "noop",
             arguments := [], tetraplets := [] })] }

/-- C6 witness: on the concrete result, the `response` request re-enqueues
nothing and the ordinary request re-enqueues one cloned item with the
packaged Marine result and the original callbacks. -/
theorem C6_reenqueue_witness :
    (dispatch true execEnvMarineNull itemSample (Except.ok resCallsSample)).enqueued =
      [{ particle := cloneWithNewData itemSample.particle []
         callResults := [(2, { result := "null", retCode := 0 })]
         onSuccess := itemSample.onSuccess
         onError := itemSample.onError }] :=
  C6_reenqueue_except_response execEnvMarineNull itemSample resCallsSample rfl

/-- C7: an item whose particle is expired at the filter before
interpretation fires the expiration effect (removal of the particle-scope
handlers of its particle id and the `onError` call with the
`ExpirationError` naming the ttl and the particle id) and never reaches the
dispatch stage; an item that survives the first filter but is expired at the
re-filter after interpretation likewise fires the expiration effect and
never reaches dispatch. -/
theorem C7_expiration_checked_twice (nowPre nowPost : Nat)
    (interpret : ParticleQueueItem → AvmOutcome) (items : List ParticleQueueItem)
    (item : ParticleQueueItem) (r : AvmOutcome) (hmem : item ∈ items) :
    (hasExpired nowPre item.particle = true →
        ({ removedHandlersForParticleId := item.particle.id
           onErrorCall :=
             (item.onError,
              ErrorEvent.expirationError (expirationErrorMsg item.particle)) } : ExpireEvent)
          ∈ (processGroupExpiry nowPre nowPost interpret items).preExpired
        ∧ (item, r) ∉ (processGroupExpiry nowPre nowPost interpret items).dispatched)
    ∧ (hasExpired nowPre item.particle = false →
       hasExpired nowPost item.particle = true →
        ({ removedHandlersForParticleId := item.particle.id
           onErrorCall :=
             (item.onError,
              ErrorEvent.expirationError (expirationErrorMsg item.particle)) } : ExpireEvent)
          ∈ (processGroupExpiry nowPre nowPost interpret items).postExpired
        ∧ (item, r) ∉ (processGroupExpiry nowPre nowPost interpret items).dispatched) := by
  simp only [processGroupExpiry, filterExpiredParticles]
  constructor
  · intro hexp
    constructor
    · exact List.mem_map.mpr ⟨item, List.mem_filter.mpr ⟨hmem, hexp⟩, rfl⟩
    · intro hd
      have h1 := (List.mem_filter.mp hd).1
      rcases List.mem_map.mp h1 with ⟨i, hi, heq⟩
      have hfst : i = item := congrArg Prod.fst heq
      subst hfst
      have h2 := (List.mem_filter.mp hi).2
      simp [hexp] at h2
  · intro hpre hpost
    constructor
    · refine List.mem_map.mpr ⟨(item, interpret item), ?_, rfl⟩
      refine List.mem_filter.mpr ⟨?_, hpost⟩
      exact List.mem_map.mpr ⟨item, List.mem_filter.mpr ⟨hmem, by simp [hpre]⟩, rfl⟩
    · intro hd
      have h2 := (List.mem_filter.mp hd).2
      simp [hpost] at h2

/-- C7 witness: a concrete particle with timestamp 100 and ttl 7000,
observed at time 10000, fires the expiration effect at the first filter and
does not reach dispatch. -/
theorem C7_expiration_witness :
    itemSample ∈ [itemSample]
    ∧ ({ removedHandlersForParticleId := itemSample.particle.id
         onErrorCall :=
           (itemSample.onError,
            ErrorEvent.expirationError (expirationErrorMsg itemSample.particle)) } : ExpireEvent)
        ∈ (processGroupExpiry 10000 10000 (fun _ => Except.error "late") [itemSample]).preExpired
    ∧ (itemSample, (Except.error "late" : AvmOutcome))
        ∉ (processGroupExpiry 10000 10000 (fun _ => Except.error "late") [itemSample]).dispatched := by
  have h := (C7_expiration_checked_twice 10000 10000 (fun _ => Except.error "late")
      [itemSample] itemSample (Except.error "late") (by decide)).1 (by decide)
  exact ⟨by decide, h.1, h.2⟩

/-- Helper: the argument-loop action equals a `callbackSrv` user-handler
registration exactly for the matching function argument. -/
theorem argServiceAction_eq_user_iff (particleId name : String) (f : Nat)
    (nv : String × ArgValue) :
    argServiceAction particleId nv
      = AquaAction.registerParticleScope particleId (userHandlerService "callbackSrv" name f)
    ↔ nv = (name, ArgValue.func f) := by
  cases nv with
  | mk nm av =>
    cases av <;>
      simp [argServiceAction, userHandlerService, injectValueService, Prod.ext_iff]

/-- Helper: the argument-loop action equals a `getDataSrv` value-injection
registration exactly for the matching non-function argument. -/
theorem argServiceAction_eq_value_iff (particleId name : String) (v : Json)
    (nv : String × ArgValue) :
    argServiceAction particleId nv
      = AquaAction.registerParticleScope particleId (injectValueService "getDataSrv" name v)
    ↔ nv = (name, ArgValue.value v) := by
  cases nv with
  | mk nm av =>
    cases av <;>
      simp [argServiceAction, userHandlerService, injectValueService, Prod.ext_iff]

/-- Helper: an action of `callAquaFunction` is an argument-loop action, the
conditional `response` registration, the relay injector, the error handler
or the final initiation. -/
theorem mem_callAquaFunction_iff (particleId : String) (args : List (String × ArgValue))
    (fireAndForget : Bool) (resolveCb rejectCb : Nat) (a : AquaAction) :
    a ∈ callAquaFunction particleId args fireAndForget resolveCb rejectCb ↔
      a ∈ args.map (argServiceAction particleId)
      ∨ (fireAndForget = false
         ∧ a = AquaAction.registerParticleScope particleId (responseService resolveCb))
      ∨ a = AquaAction.registerParticleScope particleId injectRelayService
      ∨ a = AquaAction.registerParticleScope particleId (errorHandlingService rejectCb)
      ∨ a = AquaAction.initiate particleId resolveCb rejectCb := by
  cases fireAndForget <;>
    simp [callAquaFunction, List.mem_append, or_assoc]

/-- C8: `callAquaFunction` registers a particle-scope `callbackSrv` handler
exactly for each function argument and a `getDataSrv` injector exactly for
each non-function argument; it registers `callbackSrv.response` exactly when
`fireAndForget` is false; it always registers the relay injector and the
error-handling service; and its last action is the particle initiation with
the resolve and reject callbacks. -/
theorem C8_callAquaFunction_registrations (particleId : String)
    (args : List (String × ArgValue)) (fireAndForget : Bool) (resolveCb rejectCb : Nat) :
    (∀ name f,
        AquaAction.registerParticleScope particleId (userHandlerService "callbackSrv" name f)
          ∈ callAquaFunction particleId args fireAndForget resolveCb rejectCb
        ↔ (name, ArgValue.func f) ∈ args)
    ∧ (∀ name v,
        AquaAction.registerParticleScope particleId (injectValueService "getDataSrv" name v)
          ∈ callAquaFunction particleId args fireAndForget resolveCb rejectCb
        ↔ (name, ArgValue.value v) ∈ args)
    ∧ (AquaAction.registerParticleScope particleId (responseService resolveCb)
          ∈ callAquaFunction particleId args fireAndForget resolveCb rejectCb
        ↔ fireAndForget = false)
    ∧ AquaAction.registerParticleScope particleId injectRelayService
        ∈ callAquaFunction particleId args fireAndForget resolveCb rejectCb
    ∧ AquaAction.registerParticleScope particleId (errorHandlingService rejectCb)
        ∈ callAquaFunction particleId args fireAndForget resolveCb rejectCb
    ∧ (callAquaFunction particleId args fireAndForget resolveCb rejectCb).getLast?
        = some (AquaAction.initiate particleId resolveCb rejectCb) := by
  refine ⟨fun name f => ?_, fun name v => ?_, ?_, ?_, ?_, ?_⟩
  · rw [mem_callAquaFunction_iff]
    constructor
    · rintro (h | ⟨hf, he⟩ | he | he | he)
      · rcases List.mem_map.mp h with ⟨nv, hnv, heq⟩
        rw [argServiceAction_eq_user_iff] at heq
        exact heq ▸ hnv
      · simp [userHandlerService, responseService] at he
      · simp [userHandlerService, injectRelayService] at he
      · simp [userHandlerService, errorHandlingService] at he
      · simp at he
    · intro hmem
      exact Or.inl (List.mem_map.mpr
        ⟨(name, ArgValue.func f), hmem,
          (argServiceAction_eq_user_iff particleId name f (name, ArgValue.func f)).mpr rfl⟩)
  · rw [mem_callAquaFunction_iff]
    constructor
    · rintro (h | ⟨hf, he⟩ | he | he | he)
      · rcases List.mem_map.mp h with ⟨nv, hnv, heq⟩
        rw [argServiceAction_eq_value_iff] at heq
        exact heq ▸ hnv
      · simp [injectValueService, responseService] at he
      · simp [injectValueService, injectRelayService] at he
      · simp [injectValueService, errorHandlingService] at he
      · simp at he
    · intro hmem
      exact Or.inl (List.mem_map.mpr
        ⟨(name, ArgValue.value v), hmem,
          (argServiceAction_eq_value_iff particleId name v (name, ArgValue.value v)).mpr rfl⟩)
  · rw [mem_callAquaFunction_iff]
    constructor
    · rintro (h | ⟨hf, he⟩ | he | he | he)
      · rcases List.mem_map.mp h with ⟨nv, hnv, heq⟩
        cases nv with
        | mk nm av =>
          cases av <;>
            simp [argServiceAction, userHandlerService, injectValueService,
              responseService] at heq
      · exact hf
      · simp [responseService, injectRelayService] at he
      · simp [responseService, errorHandlingService] at he
      · simp at he
    · intro hf
      exact Or.inr (Or.inl ⟨hf, rfl⟩)
  · exact (mem_callAquaFunction_iff particleId args fireAndForget resolveCb rejectCb _).mpr
      (Or.inr (Or.inr (Or.inl rfl)))
  · exact (mem_callAquaFunction_iff particleId args fireAndForget resolveCb rejectCb _).mpr
      (Or.inr (Or.inr (Or.inr (Or.inl rfl))))
  · exact List.getLast?_concat _

/-- C10: the duplicate guard of `registerMarineService` throws the
already-exists error exactly when the JS service host already has the
service id; the outcome never depends on the Marine host registry, so a
service id present in Marine alone passes the guard and
`marineHost.createService` is invoked for it again. -/
theorem C10_duplicate_guard_consults_only_js_host
    (jsHas m1 m2 : String → Bool) (serviceId : String) :
    registerMarineService jsHas m1 serviceId = registerMarineService jsHas m2 serviceId
    ∧ registerMarineService jsHas m1 serviceId =
        (if jsHas serviceId then
          Except.error ("Service with \x27" ++ serviceId ++ "\x27 id already exists")
        else Except.ok (MarineRegEffect.createService serviceId)) :=
  ⟨rfl, rfl⟩

end JsClient
